import Mathlib

/-!
Shallow embedding of the WordNest blog front-end client
(`src/services/api.js`, `src/context/AuthContext.jsx`,
`src/components/Profile.jsx`, `src/components/Posts.jsx`).

JavaScript values are modelled as follows: a possibly-absent string
(`undefined`/`null` or a string) is `Option String`; JS truthiness of such a
value is `optTruthy` (absent or the empty string are falsy); a browser `File`
is the record of the fields the code inspects (`name`, `mime`, `size`); a
request body is either a JSON-serialised field list or a `FormData` entry
list; headers are an association list with object-spread (last write wins)
semantics.  A thrown JS error is an `Except.error` carrying the message; an
operation that throws before calling `apiRequest` produces no `Request`
value, which models "no network call is issued".
-/

namespace BlogClient

/-- The fields of a browser `File` object that the client code inspects. -/
structure JsFile where
  name : String
  mime : String
  size : Nat
  deriving DecidableEq, Repr

/-- A value appended to a `FormData`: a string field or a file. -/
inductive FormValue where
  | str (s : String)
  | file (f : JsFile)
  deriving DecidableEq, Repr

/-- A request body: JSON-serialised fields (`JSON.stringify` of an object of
string fields) or a `FormData` entry list. -/
inductive Body where
  | json (fields : List (String × String))
  | formData (entries : List (String × FormValue))
  deriving DecidableEq, Repr

/-- `options.body instanceof FormData` in `apiRequest`. -/
def Body.isFormData : Body → Bool
  | .formData _ => true
  | .json _ => false

/-- JS truthiness of a string (`''` is falsy). -/
def strTruthy (s : String) : Bool := s != ""

/-- JS truthiness of a possibly-absent string (`undefined`/`null` falsy,
`''` falsy). -/
def optTruthy : Option String → Bool
  | none => false
  | some s => strTruthy s

/-- JS truthiness of a possibly-absent numeric id (`undefined`/`null` and `0`
are falsy). -/
def natTruthy : Option Nat → Bool
  | none => false
  | some n => n != 0

/-- Assigning `hs[k] = v` on a JS object viewed as an association list:
overwrite the existing key, otherwise append. -/
def setHeader (hs : List (String × String)) (k v : String) : List (String × String) :=
  if hs.any (fun p => p.1 == k) then
    hs.map (fun p => if p.1 == k then (k, v) else p)
  else
    hs ++ [(k, v)]

/-- Reading `hs[k]` from the header object. -/
def lookupHeader (hs : List (String × String)) (k : String) : Option String :=
  (hs.find? (fun p => p.1 == k)).map (fun p => p.2)

/-- Object-spread of `extra` over `base` (later keys overwrite). -/
def mergeHeaders (base extra : List (String × String)) : List (String × String) :=
  extra.foldl (fun acc p => setHeader acc p.1 p.2) base

/-- The header object built by `apiRequest` (api.js lines 19-31): start from
`Content-Type: application/json` unless the body is `FormData`, spread in
`options.headers`, then set `Authorization: Bearer <token>` when the stored
token is truthy. -/
def buildHeaders (token : Option String) (body : Body)
    (extra : List (String × String)) : List (String × String) :=
  let base := if body.isFormData then [] else [("Content-Type", "application/json")]
  let merged := mergeHeaders base extra
  match token with
  | some t => if strTruthy t then setHeader merged "Authorization" ("Bearer " ++ t) else merged
  | none => merged

/-- A request handed to `fetch`: endpoint path, HTTP method, body. -/
structure Request where
  endpoint : String
  method : String
  body : Body
  deriving DecidableEq, Repr

/-! ## Posts API (api.js lines 146-232) -/

/-- The argument object of `postsAPI.createPost`. -/
structure CreatePayload where
  title : Option String
  content : Option String
  image : Option JsFile
  deriving DecidableEq, Repr

/-- `postsAPI.createPost` (api.js lines 166-183): validate, then always build
a `FormData` body with title, content and, when present, the image.
An `Except.error` models the JS `throw` before `apiRequest` is reached. -/
def createPost (p : CreatePayload) : Except String Request :=
  if !(optTruthy p.title) || !(optTruthy p.content) then
    .error "Title and content are required"
  else
    let entries := [("title", FormValue.str (p.title.getD "")),
                    ("content", FormValue.str (p.content.getD ""))]
    let entries := entries ++
      (match p.image with
       | some f => [("image", FormValue.file f)]
       | none => [])
    .ok ⟨"/api/posts", "POST", Body.formData entries⟩

/-- The payload object of `postsAPI.updatePost`. -/
structure UpdatePayload where
  title : Option String
  content : Option String
  image : Option JsFile
  deriving DecidableEq, Repr

/-- `postsAPI.updatePost` (api.js lines 194-222): require a truthy id, then
destructure `payload || {}`, require at least one truthy field, and build a
`FormData` body containing exactly the truthy fields. -/
def updatePost (id : Option Nat) (payload : Option UpdatePayload) :
    Except String Request :=
  if !(natTruthy id) then
    .error "Post id is required"
  else
    let title := payload.bind (fun p => p.title)
    let content := payload.bind (fun p => p.content)
    let image := payload.bind (fun p => p.image)
    if !(optTruthy title) && !(optTruthy content) && image.isNone then
      .error "Title, content, or image must be provided"
    else
      let entries :=
        (if optTruthy title then [("title", FormValue.str (title.getD ""))] else []) ++
        (if optTruthy content then [("content", FormValue.str (content.getD ""))] else []) ++
        (match image with
         | some f => [("image", FormValue.file f)]
         | none => [])
      .ok ⟨"/api/posts/" ++ toString (id.getD 0), "PUT", Body.formData entries⟩

/-! ## Auth API and token store (api.js lines 4-16 and 82-143) -/

/-- A logged-in user as returned by the backend (opaque to the claims: only
identity matters). -/
structure User where
  id : Nat
  username : String
  deriving DecidableEq, Repr

/-- The response body of a successful signup/login (`{token, user, ...}`). -/
structure AuthData where
  token : Option String
  user : Option User
  deriving DecidableEq, Repr

/-- `localStorage` slot keyed `'token'`: `none` models absence. -/
abbrev TokenStore := Option String

/-- The request `authAPI.signup` issues. -/
def signupRequest (username email password : String) : Request :=
  ⟨"/api/auth/signup", "POST",
   Body.json [("username", username), ("email", email), ("password", password)]⟩

/-- The request `authAPI.login` issues. -/
def loginRequest (email password : String) : Request :=
  ⟨"/api/auth/login", "POST", Body.json [("email", email), ("password", password)]⟩

/-- The token-store effect shared by `authAPI.signup` and `authAPI.login`
(api.js lines 91-134): given the outcome of the one `apiRequest` call, store
`data.token` when it is truthy, and pass the outcome through unchanged
(`setToken` runs before `return data`, so the returned store already reflects
the token whenever the result is delivered). -/
def authStoreStep (store : TokenStore) (res : Except String AuthData) :
    TokenStore × Except String AuthData :=
  match res with
  | .ok d => (if optTruthy d.token then d.token else store, .ok d)
  | .error e => (store, .error e)

/-- `authAPI.logout` (api.js lines 136-138): remove the token; the list of
requests it issues is empty (purely local). -/
def logout (store : TokenStore) : TokenStore × List Request :=
  (none, [])

/-- A store state the running program can produce: the slot never holds the
empty string, because `setToken` is only reached under `if (data.token)`. -/
def storeWellFormed (s : TokenStore) : Prop := s ≠ some ""

/-! ## Session context (AuthContext.jsx) -/

/-- The `AuthProvider` state triple (`user`, `loading`, `isAuthenticated`). -/
structure SessionState where
  user : Option User
  loading : Bool
  isAuthenticated : Bool
  deriving DecidableEq, Repr

/-- The initial `useState` values (AuthContext.jsx lines 15-17). -/
def initialSession : SessionState := ⟨none, true, false⟩

/-- An error thrown by `apiRequest`: optional HTTP status and a message. -/
structure ApiError where
  status : Option Nat
  message : String
  deriving DecidableEq, Repr

/-- The startup effect `fetchUserProfile` (AuthContext.jsx lines 21-37): when
a token is stored, try the profile fetch — success stores the user and sets
`isAuthenticated`; any failure clears the token (`authAPI.logout()`) and sets
`isAuthenticated` to `false` without touching `user`; either way `loading`
ends `false`.  `res` is the outcome of the profile fetch, which is only
performed when a token exists. -/
def fetchUserProfile (s : SessionState) (store : TokenStore)
    (res : Except ApiError User) : SessionState × TokenStore :=
  if optTruthy store then
    match res with
    | .ok u => ({ s with user := some u, isAuthenticated := true, loading := false }, store)
    | .error _ => ({ s with isAuthenticated := false, loading := false }, none)
  else
    ({ s with loading := false }, store)

/-- The value the context `login`/`signup` return to the caller. -/
inductive AuthResult where
  | success (d : AuthData)
  | failure (error : String)
  deriving DecidableEq, Repr

/-- The context `login` (AuthContext.jsx lines 42-51): on success of the
underlying `authAPI.login` call, set the user and the authenticated flag and
return `{success: true, data}`; on a throw, leave the state untouched and
return `{success: false, error}`.  The result type is total: the function
never rethrows. -/
def ctxLogin (s : SessionState) (res : Except String AuthData) :
    SessionState × AuthResult :=
  match res with
  | .ok d => ({ s with user := d.user, isAuthenticated := true }, .success d)
  | .error e => (s, .failure e)

/-- The context `signup` (AuthContext.jsx lines 53-62): identical shape to
`ctxLogin` over `authAPI.signup`. -/
def ctxSignup (s : SessionState) (res : Except String AuthData) :
    SessionState × AuthResult :=
  match res with
  | .ok d => ({ s with user := d.user, isAuthenticated := true }, .success d)
  | .error e => (s, .failure e)

/-! ## Profile edit form (Profile.jsx lines 165-198 and 382-427) -/

/-- The last-known-good profile record the edit form diffs against. -/
structure ProfileRec where
  username : String
  email : String
  bio : Option String
  deriving DecidableEq, Repr

/-- The draft values of the profile edit form. -/
structure EditForm where
  username : String
  email : String
  bio : String
  deriving DecidableEq, Repr

/-- JS `x || d` for a possibly-absent string. -/
def jsOr (x : Option String) (d : String) : String :=
  match x with
  | some s => if strTruthy s then s else d
  | none => d

/-- The `updates` object built by `handleProfileUpdate` (Profile.jsx lines
171-180): one entry per field whose draft differs from the profile value
(`bio` is compared against `profile.bio || ''`). -/
def profileUpdates (f : EditForm) (p : ProfileRec) : List (String × String) :=
  (if f.username != p.username then [("username", f.username)] else []) ++
  (if f.email != p.email then [("email", f.email)] else []) ++
  (if f.bio != jsOr p.bio "" then [("bio", f.bio)] else [])

/-- `handleProfileUpdate` (Profile.jsx lines 165-198): reject with
`'No changes to save'` when the diff is empty, otherwise call
`userAPI.updateProfile` with exactly the diff (the `.ok` value is the payload
handed to the API; `.error` means no API call is made). -/
def handleProfileUpdate (f : EditForm) (p : ProfileRec) :
    Except String (List (String × String)) :=
  let u := profileUpdates f p
  if u.length = 0 then .error "No changes to save" else .ok u

/-- The last-known-good post record the edit-post form diffs against. -/
structure PostRec where
  id : Nat
  title : String
  content : String
  deriving DecidableEq, Repr

/-- The draft values of the edit-post form (`editPost` state). -/
structure EditPost where
  title : String
  content : String
  image : Option JsFile
  deriving DecidableEq, Repr

/-- The `updates` object built by `handleUpdatePost` (Profile.jsx lines
388-399): title/content when they differ from the original post, plus the
newly selected image when present. -/
def postUpdates (e : EditPost) (orig : PostRec) : UpdatePayload :=
  { title := if e.title != orig.title then some e.title else none,
    content := if e.content != orig.content then some e.content else none,
    image := e.image }

/-- `Object.keys(updates).length` for the update payload. -/
def updatesCount (u : UpdatePayload) : Nat :=
  (if u.title.isSome then 1 else 0) +
  (if u.content.isSome then 1 else 0) +
  (if u.image.isSome then 1 else 0)

/-- `handleUpdatePost` (Profile.jsx lines 382-427): reject with
`'No changes to save'` when the diff is empty and no image is selected,
otherwise call `postsAPI.updatePost(postId, updates)` — the `.ok` value is
the pair handed to the API. -/
def handleUpdatePost (e : EditPost) (orig : PostRec) :
    Except String (Nat × UpdatePayload) :=
  let u := postUpdates e orig
  if updatesCount u = 0 && e.image.isNone then .error "No changes to save"
  else .ok (orig.id, u)

/-! ## Image selection (Profile.jsx lines 235-268 and 347-380, Posts.jsx
`handleImageChange`) — the three handlers share the same validation logic. -/

/-- The allowlist used by every image handler. -/
def allowedTypes : List String :=
  ["image/jpeg", "image/jpg", "image/png", "image/gif", "image/webp"]

/-- The image-related slice of a form's state: the pending file, its preview,
and the validation error slot. -/
structure ImageFormState where
  file : Option JsFile
  preview : Option String
  error : String
  deriving DecidableEq, Repr

/-- The data URL `FileReader.readAsDataURL` produces, modelled opaquely as a
function of the file (the claims only need whether a preview was generated
or left unchanged). -/
def previewOf (f : JsFile) : String := "dataURL:" ++ f.name

/-- The shared image-selection handler (`handleProfilePictureChange`,
`handleEditImageChange`, `handleImageChange`): no file clears the pending
file and preview; a disallowed MIME type or a size over 5 MiB sets the error
slot and returns without touching the pending file or preview (only the DOM
input's value is reset); an accepted file clears the error, becomes the
pending file, and gets a preview. -/
def handleImageSelect (s : ImageFormState) (fsel : Option JsFile) :
    ImageFormState :=
  match fsel with
  | none => { s with file := none, preview := none }
  | some f =>
    if !(allowedTypes.contains f.mime) then
      { s with error := "Invalid file type. Only JPEG, PNG, GIF, and WebP images are allowed." }
    else if f.size > 5 * 1024 * 1024 then
      { s with error := "File too large. Maximum size is 5MB." }
    else
      { file := some f, preview := some (previewOf f), error := "" }

/-- The `FormData` entries of a body (a JSON body has none). -/
def bodyEntries : Body → List (String × FormValue)
  | .formData es => es
  | .json _ => []

/-- The MIME allowlist exactly as the claim states it (`{jpeg, png, gif,
webp}`), for comparison with the source's `allowedTypes`. -/
def specAllowedTypes : List String :=
  ["image/jpeg", "image/png", "image/gif", "image/webp"]

end BlogClient

namespace BlogClient

/-- A truthy possibly-absent string defaults (`getD`) to a nonempty string. -/
lemma optTruthy_getD_ne (x : Option String) (h : optTruthy x = true) :
    x.getD "" ≠ "" := by
  cases x with
  | none => simp [optTruthy] at h
  | some s =>
    simp [optTruthy, strTruthy] at h
    simpa using h

/-- C6: a `createPost` call whose title or content is absent or empty throws
the local error `'Title and content are required'`; the `.error` result
contains no `Request`, so no network request is issued. -/
theorem createPost_missing_field_fails_locally (p : CreatePayload)
    (h : optTruthy p.title = false ∨ optTruthy p.content = false) :
    createPost p = .error "Title and content are required" := by
  unfold createPost
  rcases h with h | h <;> simp [h]

/-- Witness for C6: the claim's instance `createPost {title:"", content:"x"}`
satisfies the hypothesis and fails with the local error. -/
theorem createPost_missing_field_fails_locally_witness :
    (optTruthy (some "") = false ∨ optTruthy (some "x") = false) ∧
    createPost ⟨some "", some "x", none⟩ = .error "Title and content are required" :=
  ⟨Or.inl (by decide),
   createPost_missing_field_fails_locally ⟨some "", some "x", none⟩ (Or.inl (by decide))⟩

/-- C7: an `updatePost` call with a valid id but with title and content each
absent or empty and no image fails locally with
`'Title, content, or image must be provided'`; a call with a missing id fails
locally with `'Post id is required'` (the id check runs first). -/
theorem updatePost_local_validation :
    (∀ id, natTruthy id = true →
      updatePost id none = .error "Title, content, or image must be provided") ∧
    (∀ id u, natTruthy id = true →
      (u.title = none ∨ u.title = some "") →
      (u.content = none ∨ u.content = some "") →
      u.image = none →
      updatePost id (some u) = .error "Title, content, or image must be provided") ∧
    (∀ payload, updatePost none payload = .error "Post id is required") := by
  refine ⟨?_, ?_, ?_⟩
  · intro id hid
    unfold updatePost
    simp [hid, optTruthy]
  · intro id u hid ht hc hi
    unfold updatePost
    rcases ht with ht | ht <;> rcases hc with hc | hc <;>
      simp [hid, ht, hc, hi, optTruthy, strTruthy]
  · intro payload
    unfold updatePost
    simp [natTruthy]

/-- Witness for C7: a concrete empty-payload update and a missing-id update
fail with the stated local errors. -/
theorem updatePost_local_validation_witness :
    updatePost (some 1) (some ⟨none, some "", none⟩) =
      .error "Title, content, or image must be provided" ∧
    updatePost none (some ⟨some "t", none, none⟩) = .error "Post id is required" :=
  ⟨updatePost_local_validation.2.1 (some 1) ⟨none, some "", none⟩ (by decide)
      (Or.inl rfl) (Or.inr rfl) rfl,
   updatePost_local_validation.2.2 (some ⟨some "t", none, none⟩)⟩

/-- C10: in `updatePost` an empty-string title or content behaves exactly
like an absent one — the whole call (validation outcome and request built) is
unchanged when `some ""` is replaced by `none` — and every title/content
entry that does reach the request body is a nonempty string, so the operation
can never set a post's title or content to the empty string. -/
theorem updatePost_empty_string_is_absent :
    (∀ id c i, updatePost id (some ⟨some "", c, i⟩) = updatePost id (some ⟨none, c, i⟩)) ∧
    (∀ id t i, updatePost id (some ⟨t, some "", i⟩) = updatePost id (some ⟨t, none, i⟩)) ∧
    (∀ id payload r, updatePost id payload = .ok r →
      ∀ v, ("title", FormValue.str v) ∈ bodyEntries r.body ∨
           ("content", FormValue.str v) ∈ bodyEntries r.body → v ≠ "") := by
  refine ⟨?_, ?_, ?_⟩
  · intro id c i
    unfold updatePost
    simp [optTruthy, strTruthy]
  · intro id t i
    unfold updatePost
    simp [optTruthy, strTruthy]
  · intro id payload r hr v hv
    unfold updatePost at hr
    by_cases hid : natTruthy id = true
    · simp [hid] at hr
      split at hr
      · exact absurd hr (by simp)
      · simp only [Except.ok.injEq] at hr
        subst hr
        simp only [bodyEntries] at hv
        by_cases hT : optTruthy (payload.bind fun p => p.title) = true
        · by_cases hC : optTruthy (payload.bind fun p => p.content) = true
          · cases himg : payload.bind fun p => p.image with
            | none =>
              simp [hT, hC, himg] at hv
              rcases hv with hv | hv <;> (subst hv; first
                | exact optTruthy_getD_ne _ hT
                | exact optTruthy_getD_ne _ hC)
            | some f =>
              simp [hT, hC, himg] at hv
              rcases hv with hv | hv <;> (subst hv; first
                | exact optTruthy_getD_ne _ hT
                | exact optTruthy_getD_ne _ hC)
          · cases himg : payload.bind fun p => p.image with
            | none =>
              simp [hT, hC, himg] at hv
              subst hv; exact optTruthy_getD_ne _ hT
            | some f =>
              simp [hT, hC, himg] at hv
              subst hv; exact optTruthy_getD_ne _ hT
        · by_cases hC : optTruthy (payload.bind fun p => p.content) = true
          · cases himg : payload.bind fun p => p.image with
            | none =>
              simp [hT, hC, himg] at hv
              subst hv; exact optTruthy_getD_ne _ hC
            | some f =>
              simp [hT, hC, himg] at hv
              subst hv; exact optTruthy_getD_ne _ hC
          · cases himg : payload.bind fun p => p.image with
            | none => simp [hT, hC, himg] at hv
            | some f => simp [hT, hC, himg] at hv
    · simp [hid] at hr

/-- Witness for C10: a concrete update whose title is `"a"` produces a body
whose title entry is nonempty. -/
theorem updatePost_empty_string_is_absent_witness :
    updatePost (some 1) (some ⟨some "a", none, none⟩) =
      .ok ⟨"/api/posts/1", "PUT", Body.formData [("title", FormValue.str "a")]⟩ ∧
    ("a" : String) ≠ "" :=
  ⟨by rfl,
   updatePost_empty_string_is_absent.2.2 (some 1) (some ⟨some "a", none, none⟩)
     ⟨"/api/posts/1", "PUT", Body.formData [("title", FormValue.str "a")]⟩
     (by rfl) "a" (Or.inl (by simp [bodyEntries]))⟩

/-- C1 counterexample: a `createPost` call with no image attached still sends
a multipart (`FormData`) body, not a JSON one — refuting "for every such call
without an image, the request body is JSON-encoded". -/
theorem createPost_without_image_is_multipart :
    createPost ⟨some "T", some "C", none⟩ =
      .ok ⟨"/api/posts", "POST",
           Body.formData [("title", FormValue.str "T"), ("content", FormValue.str "C")]⟩ ∧
    Body.isFormData
      (Body.formData [("title", FormValue.str "T"), ("content", FormValue.str "C")]) = true :=
  ⟨rfl, rfl⟩

/-- C1 amended: every request `createPost` or `updatePost` issues carries a
multipart (`FormData`) body, with or without an image; and the
`Content-Type: application/json` header is set exactly when the body is not
multipart — hence never for these calls. -/
theorem createUpdate_always_multipart :
    (∀ p r, createPost p = .ok r → r.body.isFormData = true) ∧
    (∀ id payload r, updatePost id payload = .ok r → r.body.isFormData = true) ∧
    (∀ token b, lookupHeader (buildHeaders token b []) "Content-Type" =
        some "application/json" ↔ b.isFormData = false) := by
  refine ⟨?_, ?_, ?_⟩
  · intro p r hr
    unfold createPost at hr
    split at hr
    · exact absurd hr (by simp)
    · simp only [Except.ok.injEq] at hr
      subst hr
      rfl
  · intro id payload r hr
    unfold updatePost at hr
    split at hr
    · exact absurd hr (by simp)
    · dsimp only at hr
      split at hr
      · exact absurd hr (by simp)
      · simp only [Except.ok.injEq] at hr
        subst hr
        rfl
  · intro token b
    cases b with
    | json fields =>
      cases token with
      | none => simp [buildHeaders, mergeHeaders, setHeader, lookupHeader, Body.isFormData]
      | some t =>
        by_cases ht : strTruthy t = true <;>
          simp [buildHeaders, mergeHeaders, setHeader, lookupHeader, Body.isFormData, ht]
    | formData es =>
      cases token with
      | none => simp [buildHeaders, mergeHeaders, setHeader, lookupHeader, Body.isFormData]
      | some t =>
        by_cases ht : strTruthy t = true <;>
          simp [buildHeaders, mergeHeaders, setHeader, lookupHeader, Body.isFormData, ht]

/-- Witness for the amended C1: a concrete image-less create and a concrete
update both produce multipart bodies, and with a JSON body the headers carry
`Content-Type: application/json` while with a `FormData` body they do not. -/
theorem createUpdate_always_multipart_witness :
    (Body.formData [("title", FormValue.str "T"), ("content", FormValue.str "C")]).isFormData
        = true ∧
    (Body.formData [("title", FormValue.str "a")]).isFormData = true ∧
    (lookupHeader (buildHeaders none (Body.json [("email", "e")]) []) "Content-Type" =
        some "application/json" ↔ (Body.json [("email", "e")]).isFormData = false) :=
  ⟨createUpdate_always_multipart.1 ⟨some "T", some "C", none⟩
      ⟨"/api/posts", "POST",
       Body.formData [("title", FormValue.str "T"), ("content", FormValue.str "C")]⟩ rfl,
   createUpdate_always_multipart.2.1 (some 1) (some ⟨some "a", none, none⟩)
      ⟨"/api/posts/1", "PUT", Body.formData [("title", FormValue.str "a")]⟩ rfl,
   createUpdate_always_multipart.2.2 none (Body.json [("email", "e")])⟩

/-- C2: with a (nonempty) stored token every header object `apiRequest`
builds carries `Authorization` equal to exactly `"Bearer " ++ token`; with no
stored token the `Authorization` key is absent.  The final conjuncts justify
restricting to nonempty tokens: the empty string is never stored — the
initial slot is empty and `setToken` is guarded by `if (data.token)` — so
every reachable store state is `storeWellFormed`. -/
theorem authorization_header_matches_store :
    (∀ t b, t ≠ "" →
      lookupHeader (buildHeaders (some t) b []) "Authorization" = some ("Bearer " ++ t)) ∧
    (∀ b, lookupHeader (buildHeaders none b []) "Authorization" = none) ∧
    (∀ store res, storeWellFormed store → storeWellFormed (authStoreStep store res).1) ∧
    (∀ store, storeWellFormed (logout store).1) ∧
    storeWellFormed (none : TokenStore) := by
  refine ⟨?_, ?_, ?_, ?_, ?_⟩
  · intro t b ht
    have hts : strTruthy t = true := by simp [strTruthy, ht]
    cases b with
    | json fields =>
      simp [buildHeaders, mergeHeaders, setHeader, lookupHeader, hts]
    | formData es =>
      simp [buildHeaders, mergeHeaders, setHeader, lookupHeader, hts]
  · intro b
    cases b with
    | json fields => simp [buildHeaders, mergeHeaders, lookupHeader]
    | formData es => simp [buildHeaders, mergeHeaders, lookupHeader]
  · intro store res hs
    cases res with
    | error e => exact hs
    | ok d =>
      by_cases hd : optTruthy d.token = true
      · cases hdt : d.token with
        | none => rw [hdt] at hd; simp [optTruthy] at hd
        | some s =>
          rw [hdt] at hd
          simp [optTruthy, strTruthy] at hd
          simp [authStoreStep, hdt, optTruthy, strTruthy, hd, storeWellFormed]
      · simp [authStoreStep, hd]
        exact hs
  · intro store
    simp [logout, storeWellFormed]
  · simp [storeWellFormed]

/-- Witness for C2: with the stored token `"tok"` the header equals
`Bearer tok`; a well-formed store stays well formed across a login that
returns token `"tok"`. -/
theorem authorization_header_matches_store_witness :
    lookupHeader (buildHeaders (some "tok") (Body.json [("email", "e")]) [])
        "Authorization" = some ("Bearer " ++ "tok") ∧
    lookupHeader (buildHeaders none (Body.json [("email", "e")]) [])
        "Authorization" = none ∧
    storeWellFormed (authStoreStep none (.ok ⟨some "tok", none⟩)).1 :=
  ⟨authorization_header_matches_store.1 "tok" (Body.json [("email", "e")]) (by decide),
   authorization_header_matches_store.2.1 (Body.json [("email", "e")]),
   authorization_header_matches_store.2.2.1 none (.ok ⟨some "tok", none⟩)
     (authorization_header_matches_store.2.2.2.2)⟩

/-- C3: on a successful signup or login whose response body carries a
(nonempty) token, the token-store effect shared by `authAPI.signup` and
`authAPI.login` persists exactly that token, and the response body is passed
through as the result (the store component of the returned pair already
reflects the token when the result is delivered, matching `setToken` running
before `return data`); `logout` clears the store and issues no request. -/
theorem auth_token_persisted_before_return :
    (∀ store d t, d.token = some t → t ≠ "" →
      authStoreStep store (.ok d) = (some t, .ok d)) ∧
    (∀ store, (logout store).1 = none ∧ (logout store).2 = []) := by
  constructor
  · intro store d t hd ht
    simp [authStoreStep, hd, optTruthy, strTruthy, ht]
  · intro store
    exact ⟨rfl, rfl⟩

/-- Witness for C3: a login response carrying token `"tok"` leaves `"tok"` in
the store and returns the response unchanged. -/
theorem auth_token_persisted_before_return_witness :
    authStoreStep none (.ok ⟨some "tok", some ⟨1, "alice"⟩⟩) =
      (some "tok", .ok ⟨some "tok", some ⟨1, "alice"⟩⟩) ∧
    (logout (some "tok")).1 = none ∧ (logout (some "tok")).2 = [] :=
  ⟨auth_token_persisted_before_return.1 none ⟨some "tok", some ⟨1, "alice"⟩⟩ "tok"
      rfl (by decide),
   auth_token_persisted_before_return.2 (some "tok")⟩

/-- C4: during session-context initialization with a token in storage, a
failing profile fetch with a 401 response clears the stored token and leaves
the session anonymous (`user = none`, `isAuthenticated = false`,
`loading = false`), while a successful fetch yields the authenticated state
holding the fetched user. -/
theorem session_init_401_clears_token (store : TokenStore)
    (hs : optTruthy store = true) :
    (∀ msg, fetchUserProfile initialSession store (.error ⟨some 401, msg⟩) =
      (⟨none, false, false⟩, none)) ∧
    (∀ u, fetchUserProfile initialSession store (.ok u) =
      (⟨some u, false, true⟩, store)) := by
  constructor
  · intro msg
    simp [fetchUserProfile, initialSession, hs]
  · intro u
    simp [fetchUserProfile, initialSession, hs]

/-- Witness for C4: with the stored token `"stale"`, a 401 failure ends
anonymous with the token cleared, and a success ends authenticated. -/
theorem session_init_401_clears_token_witness :
    optTruthy (some "stale") = true ∧
    fetchUserProfile initialSession (some "stale")
        (.error ⟨some 401, "Unauthorized"⟩) = (⟨none, false, false⟩, none) ∧
    fetchUserProfile initialSession (some "stale") (.ok ⟨1, "alice"⟩) =
      (⟨some ⟨1, "alice"⟩, false, true⟩, some "stale") :=
  ⟨by decide,
   (session_init_401_clears_token (some "stale") (by decide)).1 "Unauthorized",
   (session_init_401_clears_token (some "stale") (by decide)).2 ⟨1, "alice"⟩⟩

/-- C5: when the underlying API call throws, the context `login` and `signup`
leave the session state exactly as it was and return a failure result
carrying the error message (their result type is total — they never
rethrow); on success they set the returned user and the authenticated flag
and return a success result. -/
theorem ctx_login_signup_failure_keeps_state :
    (∀ s e, ctxLogin s (.error e) = (s, .failure e)) ∧
    (∀ s e, ctxSignup s (.error e) = (s, .failure e)) ∧
    (∀ s d, ctxLogin s (.ok d) =
      ({ s with user := d.user, isAuthenticated := true }, .success d)) ∧
    (∀ s d, ctxSignup s (.ok d) =
      ({ s with user := d.user, isAuthenticated := true }, .success d)) :=
  ⟨fun _ _ => rfl, fun _ _ => rfl, fun _ _ => rfl, fun _ _ => rfl⟩

/-- C8: a profile-edit or post-edit submission whose draft equals the
last-known-good values (and, for posts, has no newly selected image) is
rejected with `'No changes to save'` and hands nothing to the API; any other
submission hands the API exactly the changed fields — plus, for posts, the
newly selected image. -/
theorem zero_change_submission_rejected :
    (∀ f p, f.username = p.username → f.email = p.email → f.bio = jsOr p.bio "" →
      handleProfileUpdate f p = .error "No changes to save") ∧
    (∀ f p u, handleProfileUpdate f p = .ok u →
      ∀ k v, (k, v) ∈ u ↔
        (k = "username" ∧ v = f.username ∧ f.username ≠ p.username) ∨
        (k = "email" ∧ v = f.email ∧ f.email ≠ p.email) ∨
        (k = "bio" ∧ v = f.bio ∧ f.bio ≠ jsOr p.bio "")) ∧
    (∀ e orig, e.title = orig.title → e.content = orig.content → e.image = none →
      handleUpdatePost e orig = .error "No changes to save") ∧
    (∀ e orig i u, handleUpdatePost e orig = .ok (i, u) →
      i = orig.id ∧
      (∀ t, u.title = some t ↔ e.title ≠ orig.title ∧ t = e.title) ∧
      (∀ c, u.content = some c ↔ e.content ≠ orig.content ∧ c = e.content) ∧
      u.image = e.image) := by
  refine ⟨?_, ?_, ?_, ?_⟩
  · intro f p h1 h2 h3
    simp [handleProfileUpdate, profileUpdates, h1, h2, h3]
  · intro f p u hu k v
    unfold handleProfileUpdate at hu
    dsimp only at hu
    split at hu
    · exact absurd hu (by simp)
    · simp only [Except.ok.injEq] at hu
      subst hu
      by_cases hU : f.username = p.username <;>
        by_cases hE : f.email = p.email <;>
          by_cases hB : f.bio = jsOr p.bio "" <;>
            simp [profileUpdates, bne_iff_ne, hU, hE, hB, List.mem_append] <;>
              tauto
  · intro e orig h1 h2 h3
    simp [handleUpdatePost, postUpdates, updatesCount, h1, h2, h3]
  · intro e orig i u hu
    unfold handleUpdatePost at hu
    dsimp only at hu
    split at hu
    · exact absurd hu (by simp)
    · simp only [Except.ok.injEq, Prod.mk.injEq] at hu
      obtain ⟨hi, hu⟩ := hu
      subst hi
      subst hu
      refine ⟨rfl, ?_, ?_, rfl⟩
      · intro t
        by_cases hT : e.title = orig.title <;> simp [postUpdates, bne_iff_ne, hT] <;> tauto
      · intro c
        by_cases hC : e.content = orig.content <;>
          simp [postUpdates, bne_iff_ne, hC] <;> tauto

/-- Witness for C8: an unchanged profile draft and an unchanged post draft
are both rejected; a draft whose bio changed hands on a `bio` entry, and a
draft whose title changed hands on `some` new title. -/
theorem zero_change_submission_rejected_witness :
    handleProfileUpdate ⟨"u", "e", ""⟩ ⟨"u", "e", none⟩ = .error "No changes to save" ∧
    handleUpdatePost ⟨"t", "c", none⟩ ⟨7, "t", "c"⟩ = .error "No changes to save" ∧
    ("bio", "b") ∈ ([("bio", "b")] : List (String × String)) ∧
    (⟨some "t2", none, none⟩ : UpdatePayload).title = some "t2" :=
  ⟨zero_change_submission_rejected.1 ⟨"u", "e", ""⟩ ⟨"u", "e", none⟩ rfl rfl rfl,
   zero_change_submission_rejected.2.2.1 ⟨"t", "c", none⟩ ⟨7, "t", "c"⟩ rfl rfl rfl,
   (zero_change_submission_rejected.2.1 ⟨"u", "e", "b"⟩ ⟨"u", "e", none⟩
      [("bio", "b")] rfl "bio" "b").mpr (by decide),
   ((zero_change_submission_rejected.2.2.2 ⟨"t2", "c", none⟩ ⟨7, "t", "c"⟩ 7
      ⟨some "t2", none, none⟩ rfl).2.1 "t2").mpr (by decide)⟩

/-- C9 counterexample: a file whose MIME type is `image/jpg` — outside the
claim's set `{jpeg, png, gif, webp}` — is accepted by the handler (the
source's allowlist also contains `"image/jpg"`): no error is set, the file
becomes the pending file and a preview is generated, contradicting the
claimed rejection. -/
theorem image_jpg_accepted_counterexample :
    specAllowedTypes.contains "image/jpg" = false ∧
    handleImageSelect ⟨none, none, ""⟩ (some ⟨"x.jpg", "image/jpg", 100⟩) =
      ⟨some ⟨"x.jpg", "image/jpg", 100⟩,
       some (previewOf ⟨"x.jpg", "image/jpg", 100⟩), ""⟩ ∧
    (handleImageSelect ⟨none, none, ""⟩ (some ⟨"x.jpg", "image/jpg", 100⟩)).error = "" :=
  ⟨rfl, rfl, rfl⟩

/-- C9 amended: if a selected file's MIME type is outside the source's
allowlist `{jpeg, jpg, png, gif, webp}` or its size exceeds 5 MiB, the
handler sets the validation error slot and rejects the file before any
preview is generated, leaving the previously stored preview and previously
selected file unchanged. -/
theorem image_validation_rejects_bad_files (s : ImageFormState) (f : JsFile)
    (h : allowedTypes.contains f.mime = false ∨ f.size > 5 * 1024 * 1024) :
    (handleImageSelect s (some f)).error ≠ "" ∧
    (handleImageSelect s (some f)).file = s.file ∧
    (handleImageSelect s (some f)).preview = s.preview := by
  rcases h with h | h
  · unfold handleImageSelect
    dsimp only
    rw [if_pos (show (!(allowedTypes.contains f.mime)) = true by rw [h]; rfl)]
    exact ⟨by simp, rfl, rfl⟩
  · by_cases hc : allowedTypes.contains f.mime = true
    · unfold handleImageSelect
      dsimp only
      rw [if_neg (show ¬((!(allowedTypes.contains f.mime)) = true) by rw [hc]; decide),
          if_pos h]
      exact ⟨by simp, rfl, rfl⟩
    · have h2 : allowedTypes.contains f.mime = false := Bool.eq_false_iff.mpr hc
      unfold handleImageSelect
      dsimp only
      rw [if_pos (show (!(allowedTypes.contains f.mime)) = true by rw [h2]; rfl)]
      exact ⟨by simp, rfl, rfl⟩

/-- Witness for the amended C9: a 6 MB PNG is rejected with the size error,
leaving the previous pending file and preview untouched. -/
theorem image_validation_rejects_bad_files_witness :
    ((⟨"big.png", "image/png", 6 * 1024 * 1024⟩ : JsFile).size > 5 * 1024 * 1024) ∧
    (handleImageSelect ⟨some ⟨"old.png", "image/png", 10⟩, some "prev", ""⟩
        (some ⟨"big.png", "image/png", 6 * 1024 * 1024⟩)).error ≠ "" ∧
    (handleImageSelect ⟨some ⟨"old.png", "image/png", 10⟩, some "prev", ""⟩
        (some ⟨"big.png", "image/png", 6 * 1024 * 1024⟩)).file =
      some ⟨"old.png", "image/png", 10⟩ ∧
    (handleImageSelect ⟨some ⟨"old.png", "image/png", 10⟩, some "prev", ""⟩
        (some ⟨"big.png", "image/png", 6 * 1024 * 1024⟩)).preview = some "prev" :=
  ⟨by norm_num,
   image_validation_rejects_bad_files
     ⟨some ⟨"old.png", "image/png", 10⟩, some "prev", ""⟩
     ⟨"big.png", "image/png", 6 * 1024 * 1024⟩ (Or.inr (by norm_num))⟩

end BlogClient
